import Mathlib

/-!
Shallow embedding of the p00dle/http-session library (TypeScript), covering
the cookie jar (src/cookies/parse.ts, src/cookies/select.ts and the jar
class concatenated with it), the request formatter and redirect loop of
src/http-request.ts, and the session-handle / queue / heartbeat bookkeeping
of src/http-session.ts.

Strings are modelled as lists of characters (`Str`); every JavaScript string
primitive used by the source (split, toLowerCase on ASCII attribute names,
indexOf, slice, startsWith, replace-first-occurrence, encodeURIComponent) is
reimplemented structurally below so that concrete runs reduce inside the
kernel.  JavaScript numbers appear only as integers or NaN in this code
(`Date.now()`, `parseInt`, `+new Date(...)`), which `JsNum` captures.
-/

set_option maxRecDepth 8192

abbrev Str := List Char

/-- JavaScript `String.prototype.split` with a plain (non-regex) separator:
cut at each leftmost non-overlapping occurrence of `sep`, keeping empty
pieces.  Structural recursion on a fuel argument that the wrapper sets large
enough (each step consumes at least one character). -/
def splitSepFuel (sep : List Char) : Nat → List Char → List Char → List (List Char)
  | 0, l, acc => [acc.reverse ++ l]
  | _ + 1, [], acc => [acc.reverse]
  | fuel + 1, c :: rest, acc =>
    if sep.isPrefixOf (c :: rest) then
      acc.reverse :: splitSepFuel sep fuel (List.drop (sep.length - 1) rest) []
    else
      splitSepFuel sep fuel rest (c :: acc)

def splitSep (sep l : List Char) : List (List Char) :=
  splitSepFuel sep (l.length + 1) l []

/-- ASCII lower-casing: the behaviour of the case-insensitive regexes
(`/^secure$/i`) and of `toLowerCase` on the ASCII attribute names the cookie
parser compares against. -/
def asciiLower (c : Char) : Char :=
  if 'A' ≤ c && c ≤ 'Z' then Char.ofNat (c.toNat + 32) else c

def lowerStr (s : Str) : Str := s.map asciiLower

/-- A JavaScript number as this library computes them: an integer or NaN
(from a failed `parseInt` or an unparsable `Date`). -/
inductive JsNum where
  | nan : JsNum
  | int : Int → JsNum
deriving DecidableEq

def JsNum.add : JsNum → JsNum → JsNum
  | .int a, .int b => .int (a + b)
  | _, _ => .nan

def JsNum.mulInt : JsNum → Int → JsNum
  | .int a, k => .int (a * k)
  | .nan, _ => .nan

/-- JavaScript `parseInt(value)` in base 10: skip leading whitespace, allow
one sign, read leading decimal digits; NaN when no digit follows. -/
def jsParseInt (s : Str) : JsNum :=
  let s1 := s.dropWhile (fun c => c == ' ' || c == '\t' || c == '\n' || c == '\r')
  let signed : Bool × Str :=
    match s1 with
    | '-' :: t => (true, t)
    | '+' :: t => (false, t)
    | t => (false, t)
  let digits := signed.2.takeWhile Char.isDigit
  if digits.isEmpty then .nan
  else
    let n : Nat := digits.foldl (fun acc c => acc * 10 + (c.toNat - 48)) 0
    .int (if signed.1 then -(n : Int) else (n : Int))

/-- JavaScript truthiness of the `cookie.expires` field (`!cookie.expires`):
`undefined`, NaN and 0 are falsy. -/
def jsExpiresFalsy : Option JsNum → Bool
  | none => true
  | some .nan => true
  | some (.int n) => n == 0

/-- The cookie record of src/types/cookies.ts.  `expires` is `Option JsNum`:
`none` models the absent (undefined) field and `JsNum.nan` the NaN produced
by a failed Max-Age or Expires parse.  `secure` is `false` where the source
leaves the optional field undefined; the source only ever reads it through
its truthiness, so the two are observationally equal.  `sameSite` is a plain
string because src/cookies/parse.ts stores arbitrary attribute values into
it through a type cast. -/
structure Cookie where
  key : Str
  value : Str
  domain : Str
  isHttps : Bool
  allowSubDomains : Bool
  path : Str
  expires : Option JsNum
  secure : Bool
  sameSite : Str
  hasInvalidAttributes : Bool
deriving DecidableEq

/-- The projection of a WHATWG URL object that the cookie code reads:
`protocol` (with trailing colon), `hostname`, `host` (hostname plus
optional port) and `pathname`. -/
structure JsURL where
  protocol : Str
  hostname : Str
  host : Str
  pathname : Str
deriving DecidableEq

/-- `isQuoted` (src/cookies/parse.ts lines 4-6): first and last character
are both a double quote; false on the empty string (`str[0]` is undefined). -/
def isQuoted (s : Str) : Bool :=
  s.head? == some '"' && s.getLast? == some '"'

/-- `stripQuotes` (src/cookies/parse.ts lines 8-10): `str.slice(1, length-1)`. -/
def stripQuotes (s : Str) : Str := (s.drop 1).dropLast

/-- The cookie literal that `parseCookie` starts from
(src/cookies/parse.ts lines 13-23). -/
def parseCookieInit (hostUrl : JsURL) : Cookie :=
  { key := []
    value := []
    isHttps := hostUrl.protocol == "https:".data
    domain := hostUrl.hostname
    path := "/".data
    allowSubDomains := false
    sameSite := "Lax".data
    expires := none
    secure := false
    hasInvalidAttributes := false }

/-- One iteration of the `forEach` body of `parseCookie`
(src/cookies/parse.ts lines 27-61).  `now` models `Date.now()` and
`dateParse` models `+new Date(value)` (always a number, possibly NaN). -/
def parseCookieStep (now : Int) (dateParse : Str → JsNum) (cookie : Cookie) (str : Str) : Cookie :=
  if lowerStr str == "secure".data then { cookie with secure := true }
  else if lowerStr str == "httponly".data then cookie
  else if !(str.contains '=') then { cookie with hasInvalidAttributes := true }
  else
    let attr := str.takeWhile (fun c => c != '=')
    let value := (str.dropWhile (fun c => c != '=')).drop 1
    let attrLower := lowerStr attr
    if attrLower == "expires".data then
      if jsExpiresFalsy cookie.expires then { cookie with expires := some (dateParse value) }
      else cookie
    else if attrLower == "max-age".data then
      { cookie with expires := some (JsNum.add (.int now) ((jsParseInt value).mulInt 1000)) }
    else if attrLower == "domain".data then
      { cookie with allowSubDomains := true,
                    domain := if value.head? == some '.' then value.drop 1 else value }
    else if attrLower == "path".data then
      { cookie with path := value }
    else if attrLower == "samesite".data then
      { cookie with sameSite := value }
    else
      { cookie with key := if isQuoted attr then stripQuotes attr else attr,
                    value := if isQuoted value then stripQuotes value else value }

/-- The `"; "`-separated non-empty tokens `parseCookie` iterates over
(src/cookies/parse.ts lines 24-26). -/
def cookieTokens (cookieStr : Str) : List Str :=
  (splitSep "; ".data cookieStr).filter (fun s => s.length > 0)

/-- `parseCookie` (src/cookies/parse.ts lines 12-64). -/
def parseCookie (now : Int) (dateParse : Str → JsNum) (hostUrl : JsURL) (cookieStr : Str) : Cookie :=
  (cookieTokens cookieStr).foldl (parseCookieStep now dateParse) (parseCookieInit hostUrl)

/-- A token neither `secure` nor `httponly` (case-insensitively) and without
an equal sign: the only kind of token whose branch sets
`hasInvalidAttributes` in src/cookies/parse.ts (lines 33-36). -/
def badAttrToken (t : Str) : Bool :=
  !(lowerStr t == "secure".data) && !(lowerStr t == "httponly".data) && !(t.contains '=')

def tokenAttr (t : Str) : Str := t.takeWhile (fun c => c != '=')

def tokenValue (t : Str) : Str := (t.dropWhile (fun c => c != '=')).drop 1

def unquoteToken (s : Str) : Str := if isQuoted s then stripQuotes s else s

/-- The attribute names handled by a dedicated `case` in the parser's
`switch` (src/cookies/parse.ts lines 40-56). -/
def knownAttr (a : Str) : Bool :=
  a == "expires".data || a == "max-age".data || a == "domain".data ||
  a == "path".data || a == "samesite".data

/-- A token carrying `=` whose attribute name falls into the parser's
`default` case, i.e. is treated as the cookie's name/value pair. -/
def unknownAttrToken (t : Str) : Bool :=
  !(lowerStr t == "secure".data) && !(lowerStr t == "httponly".data) &&
  t.contains '=' && !(knownAttr (lowerStr (tokenAttr t)))

/-- `matchDomain` (src/cookies/match-domain.ts).  Modelled from the spec:
that file is not under src/; §4.1 defines it as
`candidate == reference || candidate.endsWith("." + reference)`. -/
def matchDomain (candidate reference : Str) : Bool :=
  candidate == reference || ('.' :: reference).isSuffixOf candidate

/-- The predicate returned by `selectCookieFactory`
(src/cookies/select.ts lines 4-20). -/
def selectCookie (url : JsURL) (hostDomain : Str) (cookie : Cookie) : Bool :=
  let isSecure := url.protocol == "https:".data
  let domainMatch :=
    if cookie.allowSubDomains then matchDomain hostDomain cookie.domain
    else cookie.domain == hostDomain
  let urlDomainMatch :=
    if cookie.allowSubDomains then matchDomain url.host cookie.domain
    else cookie.domain == url.host
  let pathMatch := cookie.path.isPrefixOf url.pathname
  if !pathMatch then false
  else if cookie.secure && !isSecure then false
  else if cookie.sameSite == "None".data then domainMatch
  else if cookie.sameSite == "Strict".data then domainMatch && urlDomainMatch && pathMatch
  else urlDomainMatch && pathMatch

/-- `stringifyCookie` (jar class file, `cookie.key + '=' + (cookie.value ?
cookie.value : '')`; the conditional only renames the empty string). -/
def stringifyCookie (cookie : Cookie) : Str :=
  cookie.key ++ ['='] ++ (if cookie.value == ([] : Str) then [] else cookie.value)

/-- The identity predicate of `CookieJar.addCookie`'s `findIndex` callback:
stored cookie `c` against incoming `cookie`
(key, domain, path, isHttps). -/
def cookieIdentMatches (c cookie : Cookie) : Bool :=
  c.key == cookie.key && c.domain == cookie.domain &&
  c.path == cookie.path && c.isHttps == cookie.isHttps

structure CookieJar where
  cookies : List Cookie
deriving DecidableEq

/-- The `CookieJar` constructor: `Array.isArray(cookies) ? cookies : []`.
`none` models a missing or non-array argument. -/
def CookieJar.construct : Option (List Cookie) → CookieJar
  | some cs => ⟨cs⟩
  | none => ⟨[]⟩

/-- `CookieJar.addCookie`: replace the first identity match in place,
otherwise push at the end. -/
def CookieJar.addCookie (jar : CookieJar) (cookie : Cookie) : CookieJar :=
  match jar.cookies.findIdx? (fun c => cookieIdentMatches c cookie) with
  | some i => ⟨jar.cookies.set i cookie⟩
  | none => ⟨jar.cookies ++ [cookie]⟩

def CookieJar.addCookies (jar : CookieJar) (cs : List Cookie) : CookieJar :=
  cs.foldl CookieJar.addCookie jar

/-- The expiry test of `expireCookies`:
`cookie.expires !== undefined && cookie.expires < now` (a NaN `expires`
compares false). -/
def Cookie.isExpiredAt (c : Cookie) (now : Int) : Bool :=
  match c.expires with
  | some (.int e) => e < now
  | _ => false

/-- `CookieJar.expireCookies`: the source splices expired entries out while
walking backwards, which removes exactly the expired ones and keeps the
order of the rest, i.e. a filter. -/
def CookieJar.expireCookies (jar : CookieJar) (now : Int) : CookieJar :=
  ⟨jar.cookies.filter (fun c => !(c.isExpiredAt now))⟩

def CookieJar.toJSON (jar : CookieJar) : List Cookie := jar.cookies

/-- `CookieJar.getRequestCookies(url, host)`: expire, then serialize the
selected cookies.  The source mutates the jar; the model returns the
post-expiry jar next to the strings. -/
def CookieJar.getRequestCookies (jar : CookieJar) (url : JsURL) (host : Str) (now : Int) :
    CookieJar × List Str :=
  let jar2 := jar.expireCookies now
  (jar2, (jar2.cookies.filter (selectCookie url host)).map stringifyCookie)

/-- A JavaScript header value as typed in src/types/http-request.ts:
`string | string[] | number` (an absent header is `none` at the lookup). -/
inductive HeaderValue where
  | str : Str → HeaderValue
  | list : List Str → HeaderValue
  | num : Int → HeaderValue
deriving DecidableEq

abbrev HttpHeaders := List (Str × HeaderValue)

def headerLookup (headers : HttpHeaders) (name : Str) : Option HeaderValue :=
  (headers.find? (fun kv => kv.1 == name)).map (fun kv => kv.2)

/-- JavaScript falsiness of a header value: `undefined`, `''` and `0` are
falsy; arrays are always truthy. -/
def headerValueFalsy : Option HeaderValue → Bool
  | none => true
  | some (.str s) => s.isEmpty
  | some (.num n) => n == 0
  | some (.list _) => false

/-- The `a || b` step in `headers['Set-Cookie'] || headers['set-cookie']`. -/
def jsOrHeader (a b : Option HeaderValue) : Option HeaderValue :=
  if headerValueFalsy a then b else a

/-- The value `getCookieHeaders` resolves before its array check. -/
def resolvedSetCookie : Option HttpHeaders → Option HeaderValue
  | none => none
  | some headers =>
    jsOrHeader (headerLookup headers "Set-Cookie".data) (headerLookup headers "set-cookie".data)

def isArrayHeader : Option HeaderValue → Bool
  | some (.list _) => true
  | _ => false

/-- `getCookieHeaders` (the get-cookie-headers file concatenated into
src/cookies/select.ts): `[]` without headers; resolve
`headers['Set-Cookie'] || headers['set-cookie'] || null`; `[]` unless the
result is an array. -/
def getCookieHeaders (headers : Option HttpHeaders) : List Str :=
  match headers with
  | none => []
  | some _ =>
    match resolvedSetCookie headers with
    | some (.list l) => l
    | _ => []

/-- The name character blacklist of `keyHasInvalidCharacters`.  Modelled
from the spec (src/cookies/validate.ts is not under src/): space, tab and
`( ) < > @ , ; : \ " / [ ] ? = \x7b \x7d`. -/
def invalidKeyChars : Str :=
  [' ', '\t', '(', ')', '<', '>', '@', ',', ';', ':', '\\', '"', '/', '[', ']', '?', '=',
   Char.ofNat 123, Char.ofNat 125]

def keyHasInvalidCharacters (s : Str) : Bool :=
  s.any (fun c => invalidKeyChars.contains c || c.toNat < 33 || 126 < c.toNat)

/-- Value character check.  Modelled from the spec: whitespace, `"`, `,`,
`;`, `\` or any code point outside 33-126 (every whitespace code point is
already outside that range). -/
def valueHasInvalidCharacters (s : Str) : Bool :=
  s.any (fun c => c == '"' || c == ',' || c == ';' || c == '\\' || c.toNat < 33 || 126 < c.toNat)

/-- `validateCookie(hostUrl, cookie)`.  Modelled from the spec:
src/cookies/validate.ts is not under src/; §4.1 "Validation" lists these
rejection rules, embedded here as their conjunction's negation. -/
def validateCookie (hostUrl : JsURL) (cookie : Cookie) : Bool :=
  !(cookie.hasInvalidAttributes
    || cookie.key.isEmpty
    || keyHasInvalidCharacters cookie.key
    || valueHasInvalidCharacters cookie.value
    || ("__Secure-".data.isPrefixOf cookie.key && (!cookie.isHttps || !cookie.secure))
    || ("__Host-".data.isPrefixOf cookie.key &&
        !(cookie.isHttps && cookie.secure && !cookie.allowSubDomains && cookie.path == "/".data))
    || (cookie.domain != hostUrl.hostname &&
        !(cookie.allowSubDomains && matchDomain hostUrl.hostname cookie.domain))
    || (cookie.secure && hostUrl.protocol != "https:".data && hostUrl.host != "localhost".data)
    || (cookie.sameSite == "None".data && !cookie.secure))

/-- `CookieJar.collectCookiesFromResponse`: parse every Set-Cookie header,
keep the valid ones, add them to the jar. -/
def CookieJar.collectCookiesFromResponse (jar : CookieJar) (now : Int) (dateParse : Str → JsNum)
    (url : JsURL) (responseHeaders : Option HttpHeaders) : CookieJar :=
  jar.addCookies
    (((getCookieHeaders responseHeaders).map (parseCookie now dateParse url)).filter
      (validateCookie url))

/-- Leftmost index at which `pat` occurs in a string, JavaScript
`String.prototype.indexOf` on a string pattern (`some 0` for the empty
pattern). -/
def findSubstrIdx (pat : Str) : Str → Option Nat
  | [] => if pat.isEmpty then some 0 else none
  | c :: rest =>
    if pat.isPrefixOf (c :: rest) then some 0
    else (findSubstrIdx pat rest).map (fun i => i + 1)

def containsSubstr (pat s : Str) : Bool := (findSubstrIdx pat s).isSome

/-- JavaScript `String.prototype.replace` called with a string (non-regex)
pattern: it replaces only the FIRST occurrence. -/
def jsReplaceFirst (s pat rep : Str) : Str :=
  match findSubstrIdx pat s with
  | none => s
  | some i => s.take i ++ rep ++ s.drop (i + pat.length)

/-- `secret.replace(/"/g, '\\"')`: a global regex, so every double quote is
escaped. -/
def escapeQuotes (s : Str) : Str :=
  s.foldr (fun c acc => if c == '"' then '\\' :: '"' :: acc else c :: acc) []

def hexDigitUpper : Nat → Char
  | 0 => '0' | 1 => '1' | 2 => '2' | 3 => '3' | 4 => '4'
  | 5 => '5' | 6 => '6' | 7 => '7' | 8 => '8' | 9 => '9'
  | 10 => 'A' | 11 => 'B' | 12 => 'C' | 13 => 'D' | 14 => 'E' | _ => 'F'

def hexDigitLower : Nat → Char
  | 0 => '0' | 1 => '1' | 2 => '2' | 3 => '3' | 4 => '4'
  | 5 => '5' | 6 => '6' | 7 => '7' | 8 => '8' | 9 => '9'
  | 10 => 'a' | 11 => 'b' | 12 => 'c' | 13 => 'd' | 14 => 'e' | _ => 'f'

/-- UTF-8 bytes of one code point (surrogates cannot appear in `Char`). -/
def utf8Bytes (c : Char) : List Nat :=
  let n := c.toNat
  if n < 0x80 then [n]
  else if n < 0x800 then [0xC0 + n / 0x40, 0x80 + n % 0x40]
  else if n < 0x10000 then [0xE0 + n / 0x1000, 0x80 + (n / 0x40) % 0x40, 0x80 + n % 0x40]
  else [0xF0 + n / 0x40000, 0x80 + (n / 0x1000) % 0x40, 0x80 + (n / 0x40) % 0x40, 0x80 + n % 0x40]

def percentEncodeByte (b : Nat) : Str := ['%', hexDigitUpper (b / 16), hexDigitUpper (b % 16)]

/-- The characters `encodeURIComponent` leaves unescaped. -/
def encodeURIComponentUnreserved (c : Char) : Bool :=
  c.isAlphanum || c == '-' || c == '_' || c == '.' || c == '!' ||
  c == '~' || c == '*' || c == '\'' || c == '(' || c == ')'

def encodeURIComponent (s : Str) : Str :=
  s.foldr (fun c acc =>
    (if encodeURIComponentUnreserved c then [c]
     else ((utf8Bytes c).map percentEncodeByte).flatten) ++ acc) []

/-- The application/x-www-form-urlencoded escaping performed by
`URLSearchParams.toString`: space becomes `+`; ASCII alphanumerics and
`* - . _` are kept; everything else is percent-encoded from its UTF-8
bytes. -/
def formUrlEncode (s : Str) : Str :=
  s.foldr (fun c acc =>
    (if c == ' ' then ['+']
     else if c.isAlphanum || c == '*' || c == '-' || c == '.' || c == '_' then [c]
     else ((utf8Bytes c).map percentEncodeByte).flatten) ++ acc) []

/-- The request data types of src/types/http-request.ts. -/
inductive DataType where
  | raw | json | form | binary | stream
deriving DecidableEq

/-- A form field value: `string | string[]`. -/
inductive FormValue where
  | str : Str → FormValue
  | list : List Str → FormValue
deriving DecidableEq

/-- The request body payloads relevant to the raw/form/json data types the
redaction claim concerns: absent data, a string, or a string-valued record
(streams and binaries are rendered as fixed placeholders and never
scanned). -/
inductive ReqData where
  | undef : ReqData
  | str : Str → ReqData
  | form : List (Str × FormValue) → ReqData
deriving DecidableEq

/-- The key/value pairs accumulated by the `URLSearchParams.append` loop of
`formatData` (src/http-request.ts lines 84-91): list values append one pair
per element. -/
def searchParamsPairs : List (Str × FormValue) → List (Str × Str)
  | [] => []
  | (k, .str v) :: rest => (k, v) :: searchParamsPairs rest
  | (k, .list vs) :: rest => vs.map (fun v => (k, v)) ++ searchParamsPairs rest

def joinSep (sep : Char) : List Str → Str
  | [] => []
  | [s] => s
  | s :: rest => s ++ sep :: joinSep sep rest

/-- `URLSearchParams.toString`. -/
def searchParamsToString (pairs : List (Str × Str)) : Str :=
  joinSep '&' (pairs.map (fun kv => formUrlEncode kv.1 ++ ['='] ++ formUrlEncode kv.2))

/-- JSON string escaping as `JSON.stringify` performs it (lowercase `\u00xx`
for control characters). -/
def jsonEscapeChar (c : Char) : Str :=
  if c == '"' then ['\\', '"']
  else if c == '\\' then ['\\', '\\']
  else if c == '\n' then ['\\', 'n']
  else if c == '\r' then ['\\', 'r']
  else if c == '\t' then ['\\', 't']
  else if c == '\x08' then ['\\', 'b']
  else if c == '\x0c' then ['\\', 'f']
  else if c.toNat < 32 then ['\\', 'u', '0', '0', hexDigitLower (c.toNat / 16), hexDigitLower (c.toNat % 16)]
  else [c]

def jsonStringifyStr (s : Str) : Str :=
  '"' :: s.foldr (fun c acc => jsonEscapeChar c ++ acc) ['"']

def jsonStringifyFormValue : FormValue → Str
  | .str s => jsonStringifyStr s
  | .list vs => '[' :: joinSep ',' (vs.map jsonStringifyStr) ++ [']']

/-- `JSON.stringify` on the payload universe above (undefined is handled by
the callers, which feed the result to `limitString`, where it reads as the
empty string). -/
def jsonStringify : ReqData → Str
  | .undef => []
  | .str s => jsonStringifyStr s
  | .form fields =>
    Char.ofNat 123 ::
      joinSep ',' (fields.map (fun kv => jsonStringifyStr kv.1 ++ [':'] ++ jsonStringifyFormValue kv.2))
      ++ [Char.ofNat 125]

/-- `limitString` (src/utils.ts): `''` for falsy input (the empty string);
unchanged when within the limit; otherwise the first `length - 3`
characters followed by `...`. -/
def limitString (s : Str) (len : Nat) : Str :=
  if s.isEmpty then []
  else if s.length ≤ len then s
  else s.take (len - 3) ++ "...".data

/-- `formatData` (src/http-request.ts lines 75-104) for the raw, form and
json data types; `none` stands for the thrown TypeError on a payload
incompatible with the data type, and for the binary/stream types whose
payloads are outside this model. -/
def formatData : DataType → ReqData → Option Str
  | .raw, .str s => some s
  | .raw, .undef => some []
  | .raw, .form _ => some "[object Object]".data
  | .form, .undef => some []
  | .form, .form fields => some (searchParamsToString (searchParamsPairs fields))
  | .form, .str _ => none
  | .json, .undef => some []
  | .json, d => some (jsonStringify d)
  | _, _ => none

/-- The `data`/`formattedData` fields computed by `formatRequest`
(src/http-request.ts lines 357-396) for a non-stream, non-binary body.
`data` is the raw payload (stringified via `JSON.stringify` when it is not
a string) and `formattedData` the serialized body, both truncated by
`limitString(_, 2000)`; then, for every secret, one `replace` call per
field.  `replace` with a string pattern only touches the first occurrence.
For the `data` field the search pattern is the secret itself for raw and
the quote-escaped secret otherwise; for `formattedData` it is the
URL-encoded secret for form, the quote-escaped secret for json and the
secret itself for raw. -/
def formatRequestStrings (requestDataType : DataType) (data : ReqData) (formattedData : Str)
    (hideSecrets : List Str) : Str × Str :=
  let dataString0 :=
    match data with
    | .str s => limitString s 2000
    | .undef => []
    | d => limitString (jsonStringify d) 2000
  let formattedDataString0 := limitString formattedData 2000
  if requestDataType != .binary && requestDataType != .stream then
    hideSecrets.foldl (fun (acc : Str × Str) secret =>
      (jsReplaceFirst acc.1
          (if requestDataType == .raw then secret else escapeQuotes secret) "[SECRET]".data,
       jsReplaceFirst acc.2
          (if requestDataType == .form then encodeURIComponent secret
           else if requestDataType == .json then escapeQuotes secret
           else secret) "[SECRET]".data))
      (dataString0, formattedDataString0)
  else (dataString0, formattedDataString0)

/-- The per-hop mutable state of `httpRequest`'s redirect loop
(src/http-request.ts lines 421-467): the node request method, the
Content-Length and Content-Type headers, and the `keepMethodAndData`
flag. -/
structure RedirectHopState where
  method : Str
  contentLength : Option Int
  contentType : Option Str
  keepMethodAndData : Bool
deriving DecidableEq

/-- One emitted request: its method, body-framing headers and written body
(`createReadableStream(keepMethodAndData ? formattedData : '')`). -/
structure SentRequest where
  method : Str
  contentLength : Option Int
  contentType : Option Str
  body : Str
deriving DecidableEq

/-- `isRedirect` (src/http-request.ts lines 232-234). -/
def isRedirect (status : Nat) : Bool := 300 ≤ status && status < 400

/-- The head of one loop iteration (lines 423-427 and 436): without
`keepMethodAndData` the method is set to GET, Content-Length zeroed and
Content-Type deleted; the body written is the formatted data when the flag
is set and empty otherwise. -/
def redirectHop (formattedData : Str) (st : RedirectHopState) : RedirectHopState × SentRequest :=
  let st1 :=
    if !st.keepMethodAndData then
      { st with method := "GET".data, contentLength := some 0, contentType := none }
    else st
  (st1,
   { method := st1.method, contentLength := st1.contentLength, contentType := st1.contentType,
     body := if st1.keepMethodAndData then formattedData else [] })

/-- `keepMethodAndData = response.statusCode === 307 || === 308`
(line 466). -/
def applyRedirectStatus (status : Nat) (st : RedirectHopState) : RedirectHopState :=
  { st with keepMethodAndData := status == 307 || status == 308 }

/-- The requests emitted by the redirect do-while loop, one per element of
`statuses` (the status codes of the successive responses): stop after a
non-3xx response, or when `++redirectCount < maxRedirects` fails (the
source then throws Max redirect count exceeded).  URL, cookie and Referer
bookkeeping is omitted; it does not feed back into the method, body or
Content-* fields this model tracks. -/
def redirectRequests (formattedData : Str) (maxRedirects : Nat) :
    RedirectHopState → Nat → List Nat → List SentRequest
  | _, _, [] => []
  | st, redirectCount, status :: rest =>
    let hop := redirectHop formattedData st
    if !(isRedirect status) then [hop.2]
    else if redirectCount + 1 < maxRedirects then
      hop.2 ::
        redirectRequests formattedData maxRedirects (applyRedirectStatus status hop.1)
          (redirectCount + 1) rest
    else [hop.2]

/-- The loop state before the first iteration (lines 419-421):
`keepMethodAndData = method !== 'GET'`; Content-Length/Content-Type are
whatever `makeHeaders` produced. -/
def initialRedirectState (method : Str) (contentLength : Option Int)
    (contentType : Option Str) : RedirectHopState :=
  { method := method, contentLength := contentLength, contentType := contentType,
    keepMethodAndData := method != "GET".data }

/-- The session status vocabulary of src/types/http-session.ts. -/
inductive SessionStatus where
  | loggedOut | loggingIn | ready | inUse | loggingOut | error | lockedOut | shutdown
deriving DecidableEq

/-- The session-handle operations (src/http-session.ts lines 353-362). -/
inductive HandleOp where
  | getState | setState | request | release | serialize | invalidate | reportLockout
deriving DecidableEq

/-- Which operations are wrapped with `releaseAfter = true`
(src/http-session.ts lines 356-359: release, invalidate, reportLockout). -/
def releaseAfterOp : HandleOp → Bool
  | .release => true
  | .invalidate => true
  | .reportLockout => true
  | _ => false

inductive WrapResult where
  | ok
  | errAlreadyReleased
  | errNotInUse (status : SessionStatus)
deriving DecidableEq

/-- Observable outcome of one guarded handle call: the result, whether the
underlying session method ran, how many times `onRelease` ran, the value of
`wasReleased` at the moment of dispatch (none when nothing was dispatched)
and the flag's value after the call. -/
structure WrapOutcome where
  result : WrapResult
  invokedFn : Bool
  onReleaseCalls : Nat
  wasReleasedAtDispatch : Option Bool
  wasReleasedAfter : Bool
deriving DecidableEq

/-- The guard `wrap` installed around every session-handle operation
(src/http-session.ts lines 334-352): a released handle throws before
anything runs; a status other than In Use invokes `onRelease` (when
present) and throws; otherwise a release-terminal operation first sets
`wasReleased` and invokes `onRelease`, then dispatches. -/
def wrapCall (op : HandleOp) (hasOnRelease : Bool) (wasReleased : Bool)
    (status : SessionStatus) : WrapOutcome :=
  if wasReleased then
    { result := .errAlreadyReleased, invokedFn := false, onReleaseCalls := 0,
      wasReleasedAtDispatch := none, wasReleasedAfter := wasReleased }
  else if status != .inUse then
    { result := .errNotInUse status, invokedFn := false,
      onReleaseCalls := if hasOnRelease then 1 else 0,
      wasReleasedAtDispatch := none, wasReleasedAfter := wasReleased }
  else
    { result := .ok, invokedFn := true,
      onReleaseCalls := if releaseAfterOp op && hasOnRelease then 1 else 0,
      wasReleasedAtDispatch := some (wasReleased || releaseAfterOp op),
      wasReleasedAfter := wasReleased || releaseAfterOp op }

/-- The `inQueue` bookkeeping of HttpSession with two ghost fields:
`waitingCallers` counts callers whose `requestSession` promise is still
unsettled, `activeHandles` counts granted handles not yet released.  The
claim's invariant reads `inQueue = waitingCallers + activeHandles`. -/
structure QueueState where
  inQueue : Int
  waitingCallers : Nat
  activeHandles : Nat
deriving DecidableEq

/-- The events that touch `inQueue` in src/http-session.ts, with the line
numbers of the effect each models. -/
inductive QueueEvent where
  | requestSessionMultiOk
  | requestSessionMultiLoginFail
  | requestSessionEnqueue
  | queueResolve
  | queueReject
  | releaseSession
  | invalidateSession
deriving DecidableEq

/-- Effect of each event on the counter and the ghost fields.
requestSessionMultiOk: lines 142-149, increment then grant a handle.
requestSessionMultiLoginFail: lines 142-146, increment, then
`await this.loginWrapper(ref)` rejects and the error propagates out of
`requestSession` with no decrement anywhere on that path; the caller's wait
has ended (rejected), so the ghost count of outstanding callers is
unchanged at its pre-call value.
requestSessionEnqueue: lines 142-143 and 179, increment and push.
queueResolve: line 327, the queue head receives the handle (no counter
change).
queueReject: lines 156-169, `onSettle` with an error (timeout, login
failure, releaseSession rejection): decrement and drop the entry.
releaseSession: lines 295-298, decrement.
invalidateSession: line 132, `changeStatus(\x7b..., inQueue: 0\x7d)`. -/
def queueStep (s : QueueState) : QueueEvent → QueueState
  | .requestSessionMultiOk =>
    { s with inQueue := s.inQueue + 1, activeHandles := s.activeHandles + 1 }
  | .requestSessionMultiLoginFail =>
    { s with inQueue := s.inQueue + 1 }
  | .requestSessionEnqueue =>
    { s with inQueue := s.inQueue + 1, waitingCallers := s.waitingCallers + 1 }
  | .queueResolve =>
    { s with waitingCallers := s.waitingCallers - 1, activeHandles := s.activeHandles + 1 }
  | .queueReject =>
    { s with inQueue := s.inQueue - 1, waitingCallers := s.waitingCallers - 1 }
  | .releaseSession =>
    { s with inQueue := s.inQueue - 1, activeHandles := s.activeHandles - 1 }
  | .invalidateSession =>
    { s with inQueue := 0 }

/-- The slice of session state the heartbeat logic reads and writes
(src/http-session.ts): the status, the login flag, the configured
heartbeat URL and whether a heartbeat timer is currently scheduled. -/
structure HeartbeatView where
  status : SessionStatus
  isLoggedIn : Bool
  heartbeatUrl : Option Str
  timerScheduled : Bool
deriving DecidableEq

/-- `stopHeartbeat` (lines 257-259): clearTimeout on the pending timer. -/
def stopHeartbeat (s : HeartbeatView) : HeartbeatView := { s with timerScheduled := false }

/-- `heartbeat` (lines 261-271): return without a URL; otherwise clear any
pending timer and arm a new one. -/
def heartbeatArm (s : HeartbeatView) : HeartbeatView :=
  match s.heartbeatUrl with
  | none => s
  | some _ => { s with timerScheduled := true }

/-- The catch branch of `loginWrapper` (lines 216-222): status Error, then
`stopHeartbeat`. -/
def loginFailure (s : HeartbeatView) : HeartbeatView :=
  stopHeartbeat { s with status := .error }

/-- `logoutWrapper` (lines 228-255): a no-op unless logged in; otherwise
`stopHeartbeat` runs first, and each of the three paths (no logout
callback, callback success, callback failure) ends with the statuses
shown.  Requests the logout callback itself performs are suspension points
outside this state slice. -/
def logoutWrapperRun (hasLogoutCb : Bool) (logoutThrows : Bool) (s : HeartbeatView) : HeartbeatView :=
  if !s.isLoggedIn then s
  else
    let s1 := stopHeartbeat s
    if !hasLogoutCb then { s1 with status := .loggedOut, isLoggedIn := false }
    else if logoutThrows then { s1 with status := .error, isLoggedIn := false }
    else stopHeartbeat { s1 with status := .loggedOut, isLoggedIn := false }

/-- `reportLockout` (lines 382-384): only a `changeStatus` call; the
heartbeat timer is not touched. -/
def reportLockoutRun (s : HeartbeatView) : HeartbeatView :=
  { s with status := .lockedOut, isLoggedIn := false }

/-- `shutdown` (lines 124-128): clear the registered timeouts, stop the
heartbeat, then log out when logged in. -/
def shutdownRun (hasLogoutCb : Bool) (logoutThrows : Bool) (s : HeartbeatView) : HeartbeatView :=
  let s1 := stopHeartbeat s
  if s1.isLoggedIn then logoutWrapperRun hasLogoutCb logoutThrows s1 else s1

/-- `invalidateSession` (lines 130-134): log out when logged in, then set
status Logged Out. -/
def invalidateSessionRun (hasLogoutCb : Bool) (logoutThrows : Bool) (s : HeartbeatView) : HeartbeatView :=
  let s1 := if s.isLoggedIn then logoutWrapperRun hasLogoutCb logoutThrows s else s
  { s1 with status := .loggedOut }

/-- The timer callback (lines 265-270) firing: it consumes the timer,
issues the internal GET only when the status is In Use or Ready, and then
calls `heartbeat()` again, which re-arms whenever a URL is configured.
Returns the next state and whether a heartbeat GET was issued. -/
def heartbeatFire (s : HeartbeatView) : HeartbeatView × Bool :=
  if !s.timerScheduled then (s, false)
  else
    let issued := s.status == .inUse || s.status == .ready
    (heartbeatArm { s with timerScheduled := false }, issued)

/-- A fixed host URL used by the concrete theorems below. -/
def exampleHost : JsURL :=
  ⟨"https:".data, "example.com".data, "example.com".data, "/".data⟩

/-- A duplicate-identity cookie pair used by the C7 and C9 concrete
theorems: same key/domain/path/isHttps, differing value. -/
def dupCookie (v : Str) : Cookie :=
  ⟨"a".data, v, "example.com".data, true, false, "/".data, none, false, "Lax".data, false⟩

/-- An expired cookie used by the C8 concrete theorems. -/
def expiredCookie : Cookie :=
  ⟨"e".data, "v".data, "example.com".data, true, false, "/".data, some (.int 5), false,
   "Lax".data, false⟩

theorem parseCookieStep_hasInvalid (now : Int) (dp : Str → JsNum) (c : Cookie) (t : Str) :
    (parseCookieStep now dp c t).hasInvalidAttributes =
      (c.hasInvalidAttributes || badAttrToken t) := by
  by_cases h1 : (lowerStr t == "secure".data) = true
  · simp [parseCookieStep, badAttrToken, h1]
  · have h1f : (lowerStr t == "secure".data) = false := by simpa using h1
    by_cases h2 : (lowerStr t == "httponly".data) = true
    · simp [parseCookieStep, badAttrToken, h1f, h2]
    · have h2f : (lowerStr t == "httponly".data) = false := by simpa using h2
      by_cases h3 : (t.contains '=') = true
      · simp only [parseCookieStep, badAttrToken, h1f, h2f, h3, Bool.not_true,
          Bool.not_false, Bool.false_eq_true, if_false, if_true, Bool.and_false,
          Bool.or_false]
        split_ifs <;> rfl
      · have h3f : (t.contains '=') = false := by simpa using h3
        have h3m : ¬('=' ∈ t) := by simpa using h3f
        simp [parseCookieStep, badAttrToken, h1f, h2f, h3f, h3m]

theorem foldl_parseCookieStep_hasInvalid (now : Int) (dp : Str → JsNum) :
    ∀ (l : List Str) (c : Cookie),
      (l.foldl (parseCookieStep now dp) c).hasInvalidAttributes =
        (c.hasInvalidAttributes || l.any badAttrToken)
  | [], c => by simp
  | t :: rest, c => by
    simp only [List.foldl_cons, List.any_cons]
    rw [foldl_parseCookieStep_hasInvalid now dp rest, parseCookieStep_hasInvalid]
    simp [Bool.or_assoc]

theorem parseCookieStep_unknown_overwrites (now : Int) (dp : Str → JsNum) (c : Cookie)
    (t : Str) (h : unknownAttrToken t = true) :
    (parseCookieStep now dp c t).key = unquoteToken (tokenAttr t) ∧
    (parseCookieStep now dp c t).value = unquoteToken (tokenValue t) := by
  simp only [unknownAttrToken, Bool.and_eq_true, Bool.not_eq_true'] at h
  obtain ⟨⟨⟨hsec, hhttp⟩, heq⟩, hknown⟩ := h
  have hknown2 : knownAttr (lowerStr (List.takeWhile (fun c => c != '=') t)) = false := hknown
  unfold knownAttr at hknown2
  simp only [Bool.or_eq_false_iff] at hknown2
  obtain ⟨⟨⟨⟨k1, k2⟩, k3⟩, k4⟩, k5⟩ := hknown2
  have heqm : '=' ∈ t := by simpa using heq
  simp [parseCookieStep, tokenAttr, tokenValue, unquoteToken, hsec, hhttp, heq, heqm,
    k1, k2, k3, k4, k5]

/-- Claim C2 (amended): `parseCookie` sets `hasInvalidAttributes` exactly
when some `"; "`-separated non-empty token is neither `secure` nor
`httponly` (case-insensitively) and carries no `=`.  A NaN `Max-Age`, an
unparsable `Expires` and a `SameSite` value other than Strict/Lax/None are
stored without setting the flag, and every token whose attribute name is
unrecognized overwrites the cookie's (name, value) pair regardless of
whether one was already assigned. -/
theorem c2_parseCookie_invalid_flag_characterization :
    ∀ (now : Int) (dateParse : Str → JsNum) (hostUrl : JsURL) (cookieStr : Str),
      ((parseCookie now dateParse hostUrl cookieStr).hasInvalidAttributes = true ↔
        ∃ t ∈ cookieTokens cookieStr, badAttrToken t = true) ∧
      (∀ (c : Cookie) (t : Str), unknownAttrToken t = true →
        (parseCookieStep now dateParse c t).key = unquoteToken (tokenAttr t) ∧
        (parseCookieStep now dateParse c t).value = unquoteToken (tokenValue t)) := by
  intro now dateParse hostUrl cookieStr
  constructor
  · rw [parseCookie, foldl_parseCookieStep_hasInvalid]
    simp [parseCookieInit]
  · intro c t h
    exact parseCookieStep_unknown_overwrites now dateParse c t h

/-- Claim C2 counterexample: at host https://example.com the Set-Cookie
string "sid=1; Max-Age=oops; SameSite=Duh; Unknown=x" contains a Max-Age
whose value parses to NaN, a SameSite value that is not Strict/Lax/None and
an unknown attribute with `=`, so the claim requires
`hasInvalidAttributes = true` and requires the already-assigned name/value
pair ("sid","1") to be kept; the code leaves the flag false, stores
SameSite "Duh" as-is, records a NaN expiry and overwrites the pair with
("Unknown","x"). -/
theorem c2_counterexample :
    (parseCookie 1700000000000 (fun _ => JsNum.nan) exampleHost
        "sid=1; Max-Age=oops; SameSite=Duh; Unknown=x".data).hasInvalidAttributes = false ∧
    (parseCookie 1700000000000 (fun _ => JsNum.nan) exampleHost
        "sid=1; Max-Age=oops; SameSite=Duh; Unknown=x".data).key = "Unknown".data ∧
    (parseCookie 1700000000000 (fun _ => JsNum.nan) exampleHost
        "sid=1; Max-Age=oops; SameSite=Duh; Unknown=x".data).value = "x".data ∧
    (parseCookie 1700000000000 (fun _ => JsNum.nan) exampleHost
        "sid=1; Max-Age=oops; SameSite=Duh; Unknown=x".data).sameSite = "Duh".data ∧
    (parseCookie 1700000000000 (fun _ => JsNum.nan) exampleHost
        "sid=1; Max-Age=oops; SameSite=Duh; Unknown=x".data).expires = some JsNum.nan := by
  decide

/-- Witness for the amended claim C2 at a concrete input: the token
"flarg" (no `=`) sets the flag, and the unknown attribute token
"Unknown=x" lands in the name/value default case. -/
theorem c2_witness :
    ((parseCookie 0 (fun _ => JsNum.nan) exampleHost "a=b; flarg".data).hasInvalidAttributes
      = true) ∧
    (parseCookieStep 0 (fun _ => JsNum.nan) (parseCookieInit exampleHost)
        "Unknown=x".data).key = "Unknown".data := by
  have h := c2_parseCookie_invalid_flag_characterization 0 (fun _ => JsNum.nan) exampleHost
    "a=b; flarg".data
  constructor
  · exact h.1.mpr ⟨"flarg".data, by decide, by decide⟩
  · have h2 := (h.2 (parseCookieInit exampleHost) "Unknown=x".data (by decide)).1
    rw [h2]
    decide

theorem cookieIdentMatches_refl (c : Cookie) : cookieIdentMatches c c = true := by
  simp [cookieIdentMatches]

theorem cookieIdentMatches_congr {c1 c2 : Cookie} (h : cookieIdentMatches c1 c2 = true)
    (x : Cookie) : cookieIdentMatches x c1 = cookieIdentMatches x c2 := by
  simp only [cookieIdentMatches, Bool.and_eq_true, beq_iff_eq] at h
  obtain ⟨⟨⟨h1, h2⟩, h3⟩, h4⟩ := h
  simp only [cookieIdentMatches, h1, h2, h3, h4]

theorem addCookie_of_countP_zero (l : List Cookie) (c : Cookie)
    (h : l.countP (fun x => cookieIdentMatches x c) = 0) :
    (CookieJar.mk l).addCookie c = ⟨l ++ [c]⟩ := by
  have hnone : l.findIdx? (fun x => cookieIdentMatches x c) = none := by
    rw [List.findIdx?_eq_none_iff]
    intro x hx
    simpa using List.countP_eq_zero.mp h x hx
  simp [CookieJar.addCookie, hnone]

theorem filter_eq_nil_of_countP_zero (l : List Cookie) (p : Cookie → Bool)
    (h : l.countP p = 0) : l.filter p = [] := by
  rw [List.filter_eq_nil_iff]
  exact List.countP_eq_zero.mp h

theorem addCookie_cons_not_match (a : Cookie) (t : List Cookie) (c : Cookie)
    (haf : cookieIdentMatches a c = false) :
    (CookieJar.mk (a :: t)).addCookie c = ⟨a :: ((CookieJar.mk t).addCookie c).cookies⟩ := by
  unfold CookieJar.addCookie
  simp only [List.findIdx?_cons, haf, Bool.false_eq_true, if_false]
  rw [List.findIdx?_succ]
  cases t.findIdx? (fun x => cookieIdentMatches x c) <;> simp

theorem addCookie_filter (c : Cookie) :
    ∀ (l : List Cookie), l.countP (fun x => cookieIdentMatches x c) ≤ 1 →
      ((CookieJar.mk l).addCookie c).cookies.filter (fun x => cookieIdentMatches x c) = [c]
  | [], _ => by
    simp [CookieJar.addCookie, cookieIdentMatches_refl]
  | a :: t, h => by
    by_cases ha : cookieIdentMatches a c = true
    · have hzero : t.countP (fun x => cookieIdentMatches x c) = 0 := by
        rw [List.countP_cons, ha] at h
        simpa using h
      have hnil := filter_eq_nil_of_countP_zero t _ hzero
      simp [CookieJar.addCookie, List.findIdx?_cons, ha, cookieIdentMatches_refl, hnil]
    · have haf : cookieIdentMatches a c = false := by simpa using ha
      have hle : t.countP (fun x => cookieIdentMatches x c) ≤ 1 := by
        rw [List.countP_cons, haf] at h
        simpa using h
      have ih := addCookie_filter c t hle
      rw [addCookie_cons_not_match a t c haf]
      simpa [haf] using ih

/-- Claim C7 (amended): the upsert law holds for every jar in which at most
one stored cookie carries the incoming identity tuple, the invariant every
jar reachable through addCookie/addCookies from an identity-duplicate-free
start maintains; and an addCookie whose identity is absent appends without
touching the other cookies.  (The unrestricted claim fails on jars
constructed with identity duplicates, see the counterexample.) -/
theorem c7_addCookie_upsert :
    (∀ (J : CookieJar) (c1 c2 : Cookie),
      cookieIdentMatches c1 c2 = true →
      J.cookies.countP (fun x => cookieIdentMatches x c1) ≤ 1 →
      ((J.addCookie c1).addCookie c2).cookies.filter (fun x => cookieIdentMatches x c2) = [c2]) ∧
    (∀ (J : CookieJar) (c : Cookie),
      J.cookies.countP (fun x => cookieIdentMatches x c) = 0 →
      (J.addCookie c).cookies = J.cookies ++ [c]) := by
  constructor
  · intro J c1 c2 h12 hcount
    have step1 : (J.addCookie c1).cookies.filter (fun x => cookieIdentMatches x c1) = [c1] :=
      addCookie_filter c1 J.cookies hcount
    have hcongr : ∀ x, cookieIdentMatches x c1 = cookieIdentMatches x c2 :=
      cookieIdentMatches_congr h12
    have step1' : (J.addCookie c1).cookies.filter (fun x => cookieIdentMatches x c2) = [c1] := by
      rw [← step1]
      exact List.filter_congr (fun x _ => (hcongr x).symm)
    have hcount2 : (J.addCookie c1).cookies.countP (fun x => cookieIdentMatches x c2) ≤ 1 := by
      rw [List.countP_eq_length_filter, step1']
      simp
    exact addCookie_filter c2 (J.addCookie c1).cookies hcount2
  · intro J c h
    rw [show J = CookieJar.mk J.cookies from rfl, addCookie_of_countP_zero J.cookies c h]

/-- Claim C7 counterexample: a jar constructed with two cookies of the same
identity tuple (the constructor stores the list as-is); after
addCookie(c1); addCookie(c2) with that same identity, the jar still holds
TWO cookies with the identity tuple, and one of them keeps the old value
"y" rather than c2's value, so "exactly one cookie with that identity and
value c2.value" fails for this jar. -/
theorem c7_counterexample :
    (((CookieJar.construct (some [dupCookie "x".data, dupCookie "y".data])).addCookie
          (dupCookie "v1".data)).addCookie (dupCookie "v2".data)).cookies =
        [dupCookie "v2".data, dupCookie "y".data] ∧
    ((((CookieJar.construct (some [dupCookie "x".data, dupCookie "y".data])).addCookie
          (dupCookie "v1".data)).addCookie (dupCookie "v2".data)).cookies.filter
        (fun x => cookieIdentMatches x (dupCookie "v2".data))).length = 2 ∧
    (dupCookie "y".data).value ≠ (dupCookie "v2".data).value := by
  refine ⟨by decide, by decide, by decide⟩

/-- Witness for the amended claim C7 at a concrete input: an empty jar plus
two same-identity cookies. -/
theorem c7_witness :
    (((CookieJar.construct (some [])).addCookie (dupCookie "v1".data)).addCookie
        (dupCookie "v2".data)).cookies.filter
      (fun x => cookieIdentMatches x (dupCookie "v2".data)) = [dupCookie "v2".data] ∧
    ((CookieJar.construct (some [])).addCookie (dupCookie "v1".data)).cookies =
      [] ++ [dupCookie "v1".data] := by
  constructor
  · exact c7_addCookie_upsert.1 (CookieJar.construct (some []))
      (dupCookie "v1".data) (dupCookie "v2".data) (by decide) (by decide)
  · exact c7_addCookie_upsert.2 (CookieJar.construct (some [])) (dupCookie "v1".data)
      (by decide)

/-- Claim C8: every cookie stored with `expires` strictly before the
current time is purged by `getRequestCookies`: it is gone from the jar a
subsequent `toJSON()` reads, it is not among the selected cookies the
returned name=value strings are built from, and every returned string
serializes a cookie that is not expired. -/
theorem c8_expired_cookies_absent :
    ∀ (J : CookieJar) (c : Cookie) (url : JsURL) (host : Str) (now : Int),
      c ∈ J.cookies → c.isExpiredAt now = true →
      (c ∉ (J.getRequestCookies url host now).1.cookies) ∧
      (c ∉ (J.getRequestCookies url host now).1.toJSON) ∧
      (c ∉ (J.getRequestCookies url host now).1.cookies.filter (selectCookie url host)) ∧
      ((J.getRequestCookies url host now).2 =
        ((J.getRequestCookies url host now).1.cookies.filter (selectCookie url host)).map
          stringifyCookie) ∧
      (∀ c2 ∈ (J.getRequestCookies url host now).1.cookies, c2.isExpiredAt now = false) := by
  intro J c url host now _ hexp
  have h1 : c ∉ (J.getRequestCookies url host now).1.cookies := by
    simp only [CookieJar.getRequestCookies, CookieJar.expireCookies, List.mem_filter]
    rintro ⟨-, hkeep⟩
    rw [hexp] at hkeep
    simp at hkeep
  refine ⟨h1, h1, ?_, rfl, ?_⟩
  · intro hc
    exact h1 (List.mem_filter.mp hc).1
  · intro c2 hc2
    simp only [CookieJar.getRequestCookies, CookieJar.expireCookies, List.mem_filter] at hc2
    simpa using hc2.2

/-- Witness for claim C8 at a concrete input: a jar holding one cookie that
expired at 5, queried at time 10. -/
theorem c8_witness :
    expiredCookie ∉
      ((CookieJar.mk [expiredCookie]).getRequestCookies exampleHost "example.com".data
          10).1.cookies := by
  have h := c8_expired_cookies_absent (CookieJar.mk [expiredCookie]) expiredCookie exampleHost
    "example.com".data 10 (by decide) (by decide)
  exact h.1

/-- Claim C9: the constructor stores a supplied cookie array as-is, without
validation or identity-based deduplication — a list containing two cookies
with the same identity tuple is retained whole — while addCookie is what
(re)establishes the at-most-one-per-identity invariant: starting from a jar
with at most one match it leaves exactly one. -/
theorem c9_constructor_as_is :
    (∀ (cs : List Cookie), (CookieJar.construct (some cs)).cookies = cs) ∧
    ((CookieJar.construct none).cookies = []) ∧
    (∀ (c1 c2 : Cookie), cookieIdentMatches c1 c2 = true →
      (CookieJar.construct (some [c1, c2])).cookies = [c1, c2]) ∧
    (∀ (l : List Cookie) (c : Cookie),
      l.countP (fun x => cookieIdentMatches x c) ≤ 1 →
      ((CookieJar.mk l).addCookie c).cookies.countP (fun x => cookieIdentMatches x c) = 1) := by
  refine ⟨fun cs => rfl, rfl, fun c1 c2 _ => rfl, fun l c h => ?_⟩
  rw [List.countP_eq_length_filter, addCookie_filter c l h]
  rfl

/-- Witness for claim C9 at a concrete input: a constructor call retaining
two identity-duplicates, and an addCookie that leaves exactly one identity
match. -/
theorem c9_witness :
    (CookieJar.construct (some [dupCookie "x".data, dupCookie "y".data])).cookies =
      [dupCookie "x".data, dupCookie "y".data] ∧
    ((CookieJar.mk []).addCookie (dupCookie "v".data)).cookies.countP
      (fun x => cookieIdentMatches x (dupCookie "v".data)) = 1 := by
  constructor
  · exact c9_constructor_as_is.2.2.1 (dupCookie "x".data) (dupCookie "y".data) (by decide)
  · exact c9_constructor_as_is.2.2.2 [] (dupCookie "v".data) (by decide)

/-- Claim C10 (amended): cookies are collected only when the first truthy
of headers['Set-Cookie'] and headers['set-cookie'] is an array: whenever
that resolved value is not an array, getCookieHeaders yields [] and
collectCookiesFromResponse leaves the jar unchanged.  (A falsy Set-Cookie
value — the empty string or the number 0 — does not shadow an array-valued
lowercase set-cookie header: the `||` chain falls through to it, see the
counterexample.) -/
theorem c10_non_array_set_cookie_ignored :
    ∀ (headers : Option HttpHeaders),
      isArrayHeader (resolvedSetCookie headers) = false →
      getCookieHeaders headers = [] ∧
      (∀ (jar : CookieJar) (now : Int) (dateParse : Str → JsNum) (url : JsURL),
        jar.collectCookiesFromResponse now dateParse url headers = jar) := by
  intro headers h
  have h0 : getCookieHeaders headers = [] := by
    cases headers with
    | none => rfl
    | some hs =>
      simp only [getCookieHeaders]
      cases hr : resolvedSetCookie (some hs) with
      | none => rfl
      | some v =>
        cases v with
        | str s => rfl
        | num n => rfl
        | list l =>
          rw [hr] at h
          simp [isArrayHeader] at h
  refine ⟨h0, ?_⟩
  intro jar now dp url
  simp [CookieJar.collectCookiesFromResponse, h0, CookieJar.addCookies]

/-- Claim C10 counterexample: with the uppercase Set-Cookie header supplied
as a plain (empty, hence falsy) string and a lowercase set-cookie header
supplied as an array, getCookieHeaders returns that array rather than the
empty list the claim requires for a plain-string Set-Cookie header. -/
theorem c10_counterexample :
    getCookieHeaders
        (some [("Set-Cookie".data, HeaderValue.str []),
               ("set-cookie".data, HeaderValue.list ["a=b".data])]) = ["a=b".data] ∧
    (["a=b".data] : List Str) ≠ [] := by
  refine ⟨by decide, by decide⟩

/-- Witness for the amended claim C10 at a concrete input: a truthy
plain-string Set-Cookie header yields no cookie headers and leaves a jar
unchanged. -/
theorem c10_witness :
    getCookieHeaders (some [("Set-Cookie".data, HeaderValue.str "a=b".data)]) = [] ∧
    (CookieJar.mk []).collectCookiesFromResponse 0 (fun _ => JsNum.nan) exampleHost
        (some [("Set-Cookie".data, HeaderValue.str "a=b".data)]) = CookieJar.mk [] := by
  have h := c10_non_array_set_cookie_ignored
    (some [("Set-Cookie".data, HeaderValue.str "a=b".data)]) (by decide)
  exact ⟨h.1, h.2 (CookieJar.mk []) 0 (fun _ => JsNum.nan) exampleHost⟩

theorem logoutWrapperRun_stops (hasLogoutCb logoutThrows : Bool) (s : HeartbeatView)
    (h : s.isLoggedIn = true) :
    (logoutWrapperRun hasLogoutCb logoutThrows s).timerScheduled = false := by
  simp only [logoutWrapperRun, stopHeartbeat, h, Bool.not_true, Bool.false_eq_true, if_false]
  split_ifs <;> rfl

/-- Claim C4: every session-handle operation is guarded: with wasReleased
set the call fails with the already-released error, dispatching nothing and
invoking no hook; with a status other than In Use the call invokes
onRelease once (when present) and fails with the in-status error without
dispatching; the release-terminal operations release, invalidate and
reportLockout carry the releaseAfter flag and set wasReleased before
dispatching; and wasReleased never returns from true to false. -/
theorem c4_handle_guard :
    ∀ (op : HandleOp) (hasOnRelease wasReleased : Bool) (status : SessionStatus),
      (wasReleased = true →
        (wrapCall op hasOnRelease wasReleased status).result = .errAlreadyReleased ∧
        (wrapCall op hasOnRelease wasReleased status).invokedFn = false ∧
        (wrapCall op hasOnRelease wasReleased status).onReleaseCalls = 0) ∧
      (wasReleased = false → status ≠ .inUse →
        (wrapCall op hasOnRelease wasReleased status).result = .errNotInUse status ∧
        (wrapCall op hasOnRelease wasReleased status).invokedFn = false ∧
        (wrapCall op hasOnRelease wasReleased status).onReleaseCalls =
          (if hasOnRelease then 1 else 0)) ∧
      (releaseAfterOp op = true →
        (wrapCall op hasOnRelease wasReleased status).invokedFn = true →
        (wrapCall op hasOnRelease wasReleased status).wasReleasedAtDispatch = some true ∧
        (wrapCall op hasOnRelease wasReleased status).wasReleasedAfter = true) ∧
      (wasReleased = true →
        (wrapCall op hasOnRelease wasReleased status).wasReleasedAfter = true) ∧
      (releaseAfterOp .release = true ∧ releaseAfterOp .invalidate = true ∧
        releaseAfterOp .reportLockout = true ∧ releaseAfterOp .getState = false ∧
        releaseAfterOp .setState = false ∧ releaseAfterOp .request = false ∧
        releaseAfterOp .serialize = false) := by
  intro op hasOnRelease wasReleased status
  refine ⟨?_, ?_, ?_, ?_, by decide⟩
  · intro hw
    subst hw
    refine ⟨rfl, rfl, rfl⟩
  · intro hw hst
    subst hw
    simp [wrapCall, hst]
  · intro hro hinv
    cases hw : wasReleased with
    | true =>
      subst hw
      simp [wrapCall] at hinv
    | false =>
      subst hw
      by_cases hs : status = .inUse
      · subst hs
        simp [wrapCall, hro]
      · simp [wrapCall, hs] at hinv
  · intro hw
    subst hw
    rfl

/-- Witness for claim C4 at concrete inputs: a released handle's serialize
fails with the already-released error, a handle used while the session is
Ready invokes onRelease once, and a release dispatched while In Use sees
wasReleased already true. -/
theorem c4_witness :
    (wrapCall .serialize true true .ready).result = .errAlreadyReleased ∧
    (wrapCall .request true false .ready).onReleaseCalls = 1 ∧
    (wrapCall .release false false .inUse).wasReleasedAtDispatch = some true := by
  have h1 := c4_handle_guard .serialize true true .ready
  have h2 := c4_handle_guard .request true false .ready
  have h3 := c4_handle_guard .release false false .inUse
  refine ⟨(h1.1 rfl).1, ?_, ?_⟩
  · have hx := (h2.2.1 rfl (by decide)).2.2
    simpa using hx
  · exact (h3.2.2.1 (by decide) (by decide)).1

/-- Claim C5, evaluated at the failing input: with allowMultipleRequests, a
single requestSession call whose login fails leaves inQueue at 1 although
the caller's wait ended in rejection and no handle or queue entry is
outstanding — requestSession increments the counter (line 142-143) and the
allowMultipleRequests branch has no decrement on the rejection path — so
inQueue differs from the number of callers that invoked requestSession and
have been neither released nor rejected, which is 0. -/
theorem c5_multi_login_fail_leaks_inQueue :
    queueStep ⟨0, 0, 0⟩ .requestSessionMultiLoginFail = ⟨1, 0, 0⟩ ∧
    (queueStep ⟨0, 0, 0⟩ .requestSessionMultiLoginFail).inQueue ≠
      (((queueStep ⟨0, 0, 0⟩ .requestSessionMultiLoginFail).waitingCallers : Int) +
        ((queueStep ⟨0, 0, 0⟩ .requestSessionMultiLoginFail).activeHandles : Int)) := by
  refine ⟨rfl, by decide⟩

/-- Claim C6 (amended): the heartbeat timer is cleared on login failure, on
logout, on shutdown, and on invalidation while logged in; reportLockout
however leaves the pending timer exactly as it was, and a timer fire while
the session is Locked Out issues no heartbeat GET and keeps the status
Locked Out (so later fires issue none either, until a login re-arms the
cycle). -/
theorem c6_heartbeat_stop_events :
    ∀ (s : HeartbeatView) (hasLogoutCb logoutThrows : Bool),
      ((loginFailure s).timerScheduled = false) ∧
      (s.isLoggedIn = true →
        (logoutWrapperRun hasLogoutCb logoutThrows s).timerScheduled = false) ∧
      ((shutdownRun hasLogoutCb logoutThrows s).timerScheduled = false) ∧
      (s.isLoggedIn = true →
        (invalidateSessionRun hasLogoutCb logoutThrows s).timerScheduled = false) ∧
      ((reportLockoutRun s).timerScheduled = s.timerScheduled) ∧
      (s.status = .lockedOut → (heartbeatFire s).2 = false ∧
        (heartbeatFire s).1.status = .lockedOut) := by
  intro s cb thr
  refine ⟨rfl, logoutWrapperRun_stops cb thr s, ?_, ?_, rfl, ?_⟩
  · by_cases h : s.isLoggedIn = true
    · simp only [shutdownRun, stopHeartbeat, h, if_true]
      exact logoutWrapperRun_stops cb thr _ rfl
    · simp only [shutdownRun, stopHeartbeat]
      rw [if_neg h]
  · intro h
    simp only [invalidateSessionRun, h, if_true]
    rw [logoutWrapperRun_stops cb thr s h]
  · intro h
    cases ht : s.timerScheduled with
    | false => simp [heartbeatFire, ht, h]
    | true =>
      simp only [heartbeatFire, heartbeatArm, ht, h, Bool.not_true, Bool.false_eq_true,
        if_false]
      cases s.heartbeatUrl <;> simp [h]

/-- Claim C6 counterexample: a Ready, logged-in session with a configured
heartbeat URL and a pending timer calls reportLockout; the claim requires
that no heartbeat timer remain scheduled, but the timer is still armed, and
a subsequent fire issues no GET yet re-arms the timer again. -/
theorem c6_counterexample :
    (reportLockoutRun ⟨.ready, true, some "u".data, true⟩).timerScheduled = true ∧
    heartbeatFire (reportLockoutRun ⟨.ready, true, some "u".data, true⟩) =
      (⟨.lockedOut, false, some "u".data, true⟩, false) := by
  refine ⟨rfl, rfl⟩

/-- Witness for the amended claim C6 at concrete inputs: a logged-in Ready
session's logout clears the timer, and a fire while Locked Out issues no
GET. -/
theorem c6_witness :
    (logoutWrapperRun true false ⟨.ready, true, some "u".data, true⟩).timerScheduled = false ∧
    (heartbeatFire ⟨.lockedOut, false, some "u".data, true⟩).2 = false := by
  have h1 := c6_heartbeat_stop_events ⟨.ready, true, some "u".data, true⟩ true false
  have h2 := c6_heartbeat_stop_events ⟨.lockedOut, false, some "u".data, true⟩ true false
  exact ⟨h1.2.1 rfl, (h2.2.2.2.2.2 rfl).1⟩

/-- Claim C1, evaluated at the failing input: with dataType raw, data
"abab" and hideSecrets ["ab"], formatData yields the body "abab" and
formatRequest replaces only the first occurrence of the secret —
String.prototype.replace with a string pattern stops after one match — so
the error's request.data and request.formattedData both come out as
"[SECRET]ab" and still contain the secret "ab" verbatim. -/
theorem c1_secret_survives_repeated_occurrence :
    formatData .raw (.str "abab".data) = some "abab".data ∧
    formatRequestStrings .raw (.str "abab".data) "abab".data ["ab".data] =
      ("[SECRET]ab".data, "[SECRET]ab".data) ∧
    containsSubstr "ab".data
      (formatRequestStrings .raw (.str "abab".data) "abab".data ["ab".data]).1 = true ∧
    containsSubstr "ab".data
      (formatRequestStrings .raw (.str "abab".data) "abab".data ["ab".data]).2 = true := by
  refine ⟨rfl, by decide, by decide, by decide⟩

theorem redirectRequests_head (fd : Str) (maxR : Nat) (st : RedirectHopState) (n : Nat)
    (statuses : List Nat) (r : SentRequest)
    (h : (redirectRequests fd maxR st n statuses)[0]? = some r) :
    r = (redirectHop fd st).2 := by
  cases statuses with
  | nil => simp [redirectRequests] at h
  | cons s rest =>
    simp only [redirectRequests] at h
    split_ifs at h <;> simp_all

/-- Claim C3 (amended): inside one httpRequest redirect chain, after a
307/308 response the downgrade step is skipped, so the next request keeps
the previous request's method and Content-Length/Content-Type headers and
sends the ORIGINAL formatted body (which coincides with the previous
request's body only while no earlier plain-3xx hop or initial GET emptied
it); after any other 3xx response the next request is sent with method GET,
Content-Length 0, no Content-Type header and an empty body. -/
theorem c3_redirect_method_body :
    ∀ (fd : Str) (maxR : Nat) (statuses : List Nat) (st : RedirectHopState) (n i : Nat)
      (r1 r2 : SentRequest) (s : Nat),
      (redirectRequests fd maxR st n statuses)[i]? = some r1 →
      (redirectRequests fd maxR st n statuses)[i+1]? = some r2 →
      statuses[i]? = some s →
      (((s == 307 || s == 308) = true →
          r2.method = r1.method ∧ r2.contentLength = r1.contentLength ∧
          r2.contentType = r1.contentType ∧ r2.body = fd) ∧
       ((s == 307 || s == 308) = false →
          r2.method = "GET".data ∧ r2.contentLength = some 0 ∧
          r2.contentType = none ∧ r2.body = [])) := by
  intro fd maxR statuses
  induction statuses with
  | nil =>
    intro st n i r1 r2 s h1 h2 hs
    simp [redirectRequests] at h1
  | cons s0 rest ih =>
    intro st n i r1 r2 s h1 h2 hs
    simp only [redirectRequests] at h1 h2
    by_cases hred : isRedirect s0 = true
    · by_cases hcnt : n + 1 < maxR
      · rw [if_neg (by simp [hred]), if_pos hcnt] at h1 h2
        cases i with
        | zero =>
          have hr1 : r1 = (redirectHop fd st).2 := by
            simp at h1
            exact h1.symm
          have hs0 : s = s0 := by
            simp at hs
            exact hs.symm
          have hr2 : r2 = (redirectHop fd (applyRedirectStatus s0 (redirectHop fd st).1)).2 := by
            simp only [List.getElem?_cons_succ] at h2
            exact redirectRequests_head fd maxR _ _ _ _ h2
          subst hr1 hr2 hs0
          constructor
          · intro hk
            simp [redirectHop, applyRedirectStatus, hk]
          · intro hk
            simp [redirectHop, applyRedirectStatus, hk]
        | succ j =>
          simp only [List.getElem?_cons_succ] at h1 h2 hs
          exact ih _ _ j r1 r2 s h1 h2 hs
      · rw [if_neg (by simp [hred]), if_neg hcnt] at h1 h2
        simp at h2
    · rw [if_pos (by simp [hred])] at h1 h2
      simp at h2

/-- Claim C3 counterexample: a POST of body "abc" redirected with statuses
301 then 307.  After the 301 the second request is downgraded (GET, empty
body); that second request receives the 307, and the THIRD request then
carries the original body "abc" — not the same body the 307 hop sent — and
its method GET is not the original method POST, so "the next request is
sent with the same method and the same body" fails on this chain under
either reading of "same". -/
theorem c3_counterexample :
    redirectRequests "abc".data 5
        (initialRedirectState "POST".data (some 3) (some "ct".data)) 0 [301, 307, 200] =
      [⟨"POST".data, some 3, some "ct".data, "abc".data⟩,
       ⟨"GET".data, some 0, none, []⟩,
       ⟨"GET".data, some 0, none, "abc".data⟩] ∧
    [301, 307, 200][1]? = some 307 ∧
    (⟨"GET".data, some 0, none, "abc".data⟩ : SentRequest).body ≠
      (⟨"GET".data, some 0, none, []⟩ : SentRequest).body ∧
    (⟨"GET".data, some 0, none, "abc".data⟩ : SentRequest).method ≠ "POST".data := by
  refine ⟨by decide, rfl, by decide, by decide⟩

/-- Witness for the amended claim C3 at a concrete input: on the same
chain, the response at index 0 is a 301, and the theorem yields the
downgraded shape of request index 1. -/
theorem c3_witness :
    (⟨"GET".data, some 0, none, ([] : Str)⟩ : SentRequest).method = "GET".data ∧
    (⟨"GET".data, some 0, none, ([] : Str)⟩ : SentRequest).contentLength = some 0 ∧
    (⟨"GET".data, some 0, none, ([] : Str)⟩ : SentRequest).contentType = none ∧
    (⟨"GET".data, some 0, none, ([] : Str)⟩ : SentRequest).body = [] := by
  have h := c3_redirect_method_body "abc".data 5 [301, 307, 200]
    (initialRedirectState "POST".data (some 3) (some "ct".data)) 0 0
    ⟨"POST".data, some 3, some "ct".data, "abc".data⟩
    ⟨"GET".data, some 0, none, []⟩ 301 (by decide) (by decide) (by decide)
  exact h.2 (by decide)
